import Mathlib

/-! Verification development for the browser-side activity sign-up client
(`src/static/app.js`).  The client fetches an activity collection from
`GET /activities`, renders a detail card per activity plus a selection
control, and submits signup (`POST .../signup`) and unregister
(`DELETE .../unregister`) requests, reporting outcomes through a transient
status message that a 5-second timer hides.

The embedding below translates the script's observable behaviour into pure
state transformers.  JSON responses are modelled with `Option String` fields
(a missing field is `none`, mirroring JavaScript `undefined`); the JavaScript
truthiness of `result.detail || fallback` (the empty string is falsy) is
captured by `jsOrElse`, and assigning `undefined` to the nullable
`textContent` attribute (whose setter renders it as the empty string) by
`jsTextContent`.  Each handler is
one atomic step: its network call either throws (transport error) or yields a
response with an `ok` flag and a body, and the handler's DOM mutations are
applied to the state record.  `setTimeout(..., 5000)` calls are modelled by
recording the absolute fire time in a `timers` list; `elapseTo` advances the
clock with no intervening actions, firing every due timer (each fired timer
adds the `hidden` class to the message box). -/

namespace ActivityClient

/-- One activity as delivered by the list endpoint: description, schedule,
capacity and the ordered roster of participant emails. -/
structure Activity where
  description : String
  schedule : String
  max_participants : Nat
  participants : List String
deriving DecidableEq

/-- A row of the participants list inside an activity card: either the
placeholder shown for an empty roster, or one participant item.  In the
script a participant item carries a name span and exactly one delete
button; the placeholder carries none. -/
inductive LiRow where
  | participantItem (name : String)
  | noParticipants
deriving DecidableEq

/-- Number of unregister controls carried by a row: the script appends one
`deleteBtn` per participant item and none to the placeholder row. -/
def LiRow.deleteControls : LiRow → Nat
  | .participantItem _ => 1
  | .noParticipants => 0

/-- One rendered activity card: heading, description, schedule, the
displayed `spotsLeft` number and the participants rows. -/
structure ActivityCard where
  name : String
  description : String
  schedule : String
  spotsLeft : Int
  rows : List LiRow
deriving DecidableEq

/-- Contents of the `activities-list` container: the initial loading
message, the static failure notice written on a failed fetch, or the
rendered cards. -/
inductive ListView where
  | loading
  | failureNotice
  | cards (cs : List ActivityCard)
deriving DecidableEq

/-- The rendered cards of a list view (none for the loading message or the
failure notice). -/
def ListView.getCards : ListView → List ActivityCard
  | .cards cs => cs
  | _ => []

/-- Number of rendered detail cards. -/
def ListView.cardCount (v : ListView) : Nat :=
  v.getCards.length

/-- One entry of the selection control, with its `value` attribute and its
displayed text. -/
structure SelectOption where
  value : String
  text : String
deriving DecidableEq

/-- The placeholder entry the script installs first: empty value, text
"-- Select an activity --". -/
def defaultOption : SelectOption :=
  ⟨"", "-- Select an activity --"⟩

/-- Kind of the status message (the `className` the script assigns). -/
inductive MsgKind where
  | neutral
  | success
  | error
deriving DecidableEq

/-- The status message box: its text, its kind and whether the `hidden`
class is present. -/
structure MsgBox where
  text : String
  kind : MsgKind
  hidden : Bool
deriving DecidableEq

/-- The observable DOM state the script mutates: the activities list, the
selection control's entries, the email input's value, the message box and
the pending hide-timer fire times. -/
structure DomState where
  activitiesList : ListView
  activitySelect : List SelectOption
  emailField : String
  msg : MsgBox
  timers : List Nat
deriving DecidableEq

/-- State at page load: loading text, empty selection control, empty email
field, hidden neutral message, no timers. -/
def initialState : DomState :=
  ⟨ListView.loading, [], "", ⟨"", MsgKind.neutral, true⟩, []⟩

/-- Outcome of the `GET /activities` call as the script observes it:
either `fetch` or `response.json()` threw (transport or parse failure), or
a collection was decoded.  `Object.entries` enumerates the object's keys in
order, so the collection is a list of name/activity pairs with distinct
names. -/
inductive ListFetchResult where
  | failure
  | success (activities : List (String × Activity))
deriving DecidableEq

/-- Rendering of one activity entry into its card, following the script:
`spotsLeft` is `max_participants - participants.length` over the numbers
(negative when the roster exceeds capacity); a non-empty roster maps each
participant to one item row, an empty roster yields the single placeholder
row. -/
def renderCard (name : String) (details : Activity) : ActivityCard :=
  { name := name
    description := details.description
    schedule := details.schedule
    spotsLeft := (details.max_participants : Int) - (details.participants.length : Int)
    rows :=
      if details.participants.length > 0 then
        details.participants.map LiRow.participantItem
      else
        [LiRow.noParticipants] }

/-- `fetchActivities`: on a decoded collection it replaces the list with
one card per entry and rebuilds the selection control as the placeholder
followed by one option (value and text both the name) per entry; on a
transport or parse failure — which occurs before any DOM mutation — it
overwrites the list with the static failure notice and touches nothing
else.  The script never retries: each invocation performs the single fetch
modelled here. -/
def fetchActivities (st : DomState) (r : ListFetchResult) : DomState :=
  match r with
  | .failure =>
      { st with activitiesList := ListView.failureNotice }
  | .success acts =>
      { st with
        activitiesList := ListView.cards (acts.map fun p => renderCard p.1 p.2)
        activitySelect := defaultOption :: acts.map fun p => SelectOption.mk p.1 p.1 }

/-- Body of a signup/unregister response: `message` on success paths,
`detail` on failure paths; either field may be absent (`none`, the
JavaScript `undefined`). -/
structure ResponseBody where
  message : Option String
  detail : Option String
deriving DecidableEq

/-- Outcome of a signup or unregister call: the fetch threw (transport
error), or a response arrived with its `ok` flag (true exactly for 2xx
statuses) and decoded body. -/
inductive FetchResponse where
  | transportError
  | response (ok : Bool) (body : ResponseBody)
deriving DecidableEq

/-- Assigning a possibly-absent string to `textContent`: `Node.textContent`
is a nullable `DOMString?` attribute, Web IDL converts the JavaScript
`undefined` to `null` for nullable types, and the setter treats `null` as
the empty string — so an absent field displays an empty message. -/
def jsTextContent : Option String → String
  | some s => s
  | none => ""

/-- JavaScript `x || fb` on a possibly-absent string: the fallback is used
when the field is absent or is the (falsy) empty string. -/
def jsOrElse (x : Option String) (fb : String) : String :=
  match x with
  | some s => if s = "" then fb else s
  | none => fb

/-- Result of running a handler: the new DOM state and whether the handler
invoked `fetchActivities`. -/
structure HandlerResult where
  st : DomState
  refetched : Bool
deriving DecidableEq

/-- The signup form submit handler, completing at time `t`.  Transport
error: generic error message, no timer, nothing else.  Response with
`ok`: success message from `result.message`, form reset (email cleared),
refetch via `fetchActivities` with result `refetch`, then a 5-second hide
timer.  Response without `ok`: error message `result.detail || "An error
occurred"` and the 5-second hide timer; no reset, no refetch. -/
def signupSubmit (st : DomState) (t : Nat) (r : FetchResponse)
    (refetch : ListFetchResult) : HandlerResult :=
  match r with
  | .transportError =>
      ⟨{ st with msg := ⟨"Failed to sign up. Please try again.", MsgKind.error, false⟩ },
        false⟩
  | .response ok body =>
      if ok then
        let st1 := { st with
          msg := ⟨jsTextContent body.message, MsgKind.success, false⟩
          emailField := "" }
        let st2 := fetchActivities st1 refetch
        ⟨{ st2 with timers := st2.timers ++ [t + 5000] }, true⟩
      else
        ⟨{ st with
            msg := ⟨jsOrElse body.detail "An error occurred", MsgKind.error, false⟩
            timers := st.timers ++ [t + 5000] }, false⟩

/-- The per-participant delete button click handler, completing at time
`t`.  Transport error: generic error message, no timer.  Response with
`ok`: success message from `result.message`, refetch via `fetchActivities`,
5-second hide timer.  Response without `ok`: error message `result.detail
|| "Failed to unregister"` and the 5-second hide timer; no refetch. -/
def unregisterClick (st : DomState) (t : Nat) (r : FetchResponse)
    (refetch : ListFetchResult) : HandlerResult :=
  match r with
  | .transportError =>
      ⟨{ st with msg := ⟨"Failed to unregister. Please try again.", MsgKind.error, false⟩ },
        false⟩
  | .response ok body =>
      if ok then
        let st1 := { st with msg := ⟨jsTextContent body.message, MsgKind.success, false⟩ }
        let st2 := fetchActivities st1 refetch
        ⟨{ st2 with timers := st2.timers ++ [t + 5000] }, true⟩
      else
        ⟨{ st with
            msg := ⟨jsOrElse body.detail "Failed to unregister", MsgKind.error, false⟩
            timers := st.timers ++ [t + 5000] }, false⟩

/-- Advance the clock to `now` with no intervening user actions: every
pending timer whose fire time has been reached fires, each adding the
`hidden` class to the message box, and is removed from the pending list. -/
def elapseTo (st : DomState) (now : Nat) : DomState :=
  { st with
    msg := if st.timers.any (fun ft => ft ≤ now) then { st.msg with hidden := true } else st.msg
    timers := st.timers.filter (fun ft => now < ft) }

/-! Concrete sample data used by witness theorems. -/

/-- A sample over-admitted activity: capacity 1, three participants. -/
def chessOver : Activity :=
  ⟨"Weekly chess", "Fridays", 1, ["a@x.com", "b@x.com", "c@x.com"]⟩

/-- A sample collection with a single entry. -/
def sampleActs : List (String × Activity) :=
  [("Chess Club", chessOver)]

/-- A sample activity with two participants. -/
def artActivity : Activity :=
  ⟨"Painting", "Mondays", 10, ["a@x.com", "b@x.com"]⟩

/-- A sample activity with an empty roster. -/
def emptyActivity : Activity :=
  ⟨"Workout", "Tuesdays", 5, []⟩

/-- C1: rendering a successfully fetched collection produces exactly one
detail card per key of the collection, and the selection control holds the
placeholder entry followed by exactly one option per activity, the
placeholder occurring exactly once. -/
theorem c1_render_counts (st : DomState) (acts : List (String × Activity))
    (h : (acts.map Prod.fst).Nodup) :
    (fetchActivities st (.success acts)).activitiesList.cardCount
        = (acts.map Prod.fst).toFinset.card ∧
    (fetchActivities st (.success acts)).activitySelect
        = defaultOption :: acts.map (fun p => SelectOption.mk p.1 p.1) ∧
    (fetchActivities st (.success acts)).activitySelect.count defaultOption = 1 := by
  refine ⟨?_, rfl, ?_⟩
  · simp [fetchActivities, ListView.cardCount, ListView.getCards,
      List.toFinset_card_of_nodup h]
  · have hz : (acts.map fun p => SelectOption.mk p.1 p.1).count defaultOption = 0 := by
      refine List.count_eq_zero.mpr ?_
      intro hmem
      rcases List.mem_map.mp hmem with ⟨p, _, hp⟩
      have hv : p.1 = "" := congrArg SelectOption.value hp
      have ht : p.1 = "-- Select an activity --" := congrArg SelectOption.text hp
      rw [hv] at ht
      exact absurd ht (by decide)
    simp [fetchActivities, List.count_cons, hz]

/-- Witness for C1 at the sample one-entry collection. -/
theorem c1_witness :
    (fetchActivities initialState (.success sampleActs)).activitiesList.cardCount
        = (sampleActs.map Prod.fst).toFinset.card ∧
    (fetchActivities initialState (.success sampleActs)).activitySelect
        = defaultOption :: sampleActs.map (fun p => SelectOption.mk p.1 p.1) ∧
    (fetchActivities initialState (.success sampleActs)).activitySelect.count defaultOption
        = 1 :=
  c1_render_counts initialState sampleActs (by decide)

/-- C2: the card rendered for the i-th activity displays a remaining
capacity of exactly `max_participants - participants.length`, computed over
the integers with no clamping (so it is negative when the roster exceeds
capacity). -/
theorem c2_spots_exact (st : DomState) (acts : List (String × Activity))
    (i : Nat) (h : i < acts.length) :
    ((fetchActivities st (.success acts)).activitiesList.getCards)[i]?
        = some (renderCard (acts.get ⟨i, h⟩).1 (acts.get ⟨i, h⟩).2) ∧
    (renderCard (acts.get ⟨i, h⟩).1 (acts.get ⟨i, h⟩).2).spotsLeft
        = ((acts.get ⟨i, h⟩).2.max_participants : Int)
            - ((acts.get ⟨i, h⟩).2.participants.length : Int) := by
  constructor
  · simp [fetchActivities, ListView.getCards, List.getElem?_eq_getElem h]
  · rfl

/-- Witness for C2 at the over-admitted sample: capacity 1 minus 3
participants yields the negative value -2, displayed unclamped. -/
theorem c2_witness :
    ((fetchActivities initialState (.success sampleActs)).activitiesList.getCards)[0]?
        = some (renderCard "Chess Club" chessOver) ∧
    (renderCard "Chess Club" chessOver).spotsLeft = -2 :=
  ⟨(c2_spots_exact initialState sampleActs 0 (by decide)).1, by decide⟩

/-- C5: a transport or parse failure of the list fetch (which occurs before
any DOM mutation of this invocation) replaces the detail list with the
static failure notice and leaves the selection control exactly as it was;
`fetchActivities` performs no retry — the invocation ends there. -/
theorem c5_failure_terminal (st : DomState) :
    (fetchActivities st ListFetchResult.failure).activitiesList
        = ListView.failureNotice ∧
    (fetchActivities st ListFetchResult.failure).activitySelect = st.activitySelect :=
  ⟨rfl, rfl⟩

/-- C8: an activity with an empty roster renders exactly the single
placeholder row carrying zero unregister controls; a non-empty roster
renders one row per participant, each carrying exactly one unregister
control. -/
theorem c8_participant_rows (name : String) (d : Activity) :
    (d.participants = [] →
      (renderCard name d).rows = [LiRow.noParticipants] ∧
      ((renderCard name d).rows.map LiRow.deleteControls).sum = 0) ∧
    (d.participants ≠ [] →
      (renderCard name d).rows = d.participants.map LiRow.participantItem ∧
      (renderCard name d).rows.length = d.participants.length ∧
      ∀ r ∈ (renderCard name d).rows, r.deleteControls = 1) := by
  constructor
  · intro he
    simp [renderCard, he, LiRow.deleteControls]
  · intro hne
    have hlen : 0 < d.participants.length := List.length_pos.mpr hne
    refine ⟨by simp [renderCard, hlen], by simp [renderCard, hlen], ?_⟩
    intro r hr
    simp [renderCard, hlen] at hr
    rcases hr with ⟨q, _, hq⟩
    rw [← hq]
    rfl

/-- Witness for C8: the empty-roster sample renders the lone placeholder
row; the two-participant sample renders one row per participant. -/
theorem c8_witness :
    (renderCard "Workout Class" emptyActivity).rows = [LiRow.noParticipants] ∧
    (renderCard "Painting Club" artActivity).rows.length
        = artActivity.participants.length :=
  ⟨((c8_participant_rows "Workout Class" emptyActivity).1 rfl).1,
   ((c8_participant_rows "Painting Club" artActivity).2 (by decide)).2.1⟩

/-- C3: a signup or unregister whose response is `ok` (2xx) invokes
`fetchActivities`, and the resulting detail list and selection control are
exactly those produced by rendering the refetched collection on top of the
prior state — the post-mutation server state. -/
theorem c3_success_refetch (st : DomState) (t : Nat) (body : ResponseBody)
    (refetch : ListFetchResult) :
    (signupSubmit st t (.response true body) refetch).refetched = true ∧
    (signupSubmit st t (.response true body) refetch).st.activitiesList
        = (fetchActivities st refetch).activitiesList ∧
    (signupSubmit st t (.response true body) refetch).st.activitySelect
        = (fetchActivities st refetch).activitySelect ∧
    (unregisterClick st t (.response true body) refetch).refetched = true ∧
    (unregisterClick st t (.response true body) refetch).st.activitiesList
        = (fetchActivities st refetch).activitiesList ∧
    (unregisterClick st t (.response true body) refetch).st.activitySelect
        = (fetchActivities st refetch).activitySelect := by
  cases refetch <;>
    simp [signupSubmit, unregisterClick, fetchActivities]

/-- C6: a signup completing with an `ok` response resets the form, clearing
the email field; a signup rejected with a non-`ok` response or failing in
transport leaves the email field exactly as it was. -/
theorem c6_form_reset (st : DomState) (t : Nat) (body : ResponseBody)
    (refetch : ListFetchResult) :
    (signupSubmit st t (.response true body) refetch).st.emailField = "" ∧
    (signupSubmit st t (.response false body) refetch).st.emailField = st.emailField ∧
    (signupSubmit st t FetchResponse.transportError refetch).st.emailField
        = st.emailField := by
  cases refetch <;>
    simp [signupSubmit, fetchActivities]

/-- C9: a signup or unregister that fails — non-`ok` response or transport
error — does not invoke `fetchActivities`, and leaves the detail list and
the selection control exactly as they were. -/
theorem c9_failure_no_refetch (st : DomState) (t : Nat) (body : ResponseBody)
    (refetch : ListFetchResult) :
    ((signupSubmit st t (.response false body) refetch).refetched = false ∧
      (signupSubmit st t (.response false body) refetch).st.activitiesList
          = st.activitiesList ∧
      (signupSubmit st t (.response false body) refetch).st.activitySelect
          = st.activitySelect) ∧
    ((signupSubmit st t FetchResponse.transportError refetch).refetched = false ∧
      (signupSubmit st t FetchResponse.transportError refetch).st.activitiesList
          = st.activitiesList ∧
      (signupSubmit st t FetchResponse.transportError refetch).st.activitySelect
          = st.activitySelect) ∧
    ((unregisterClick st t (.response false body) refetch).refetched = false ∧
      (unregisterClick st t (.response false body) refetch).st.activitiesList
          = st.activitiesList ∧
      (unregisterClick st t (.response false body) refetch).st.activitySelect
          = st.activitySelect) ∧
    ((unregisterClick st t FetchResponse.transportError refetch).refetched = false ∧
      (unregisterClick st t FetchResponse.transportError refetch).st.activitiesList
          = st.activitiesList ∧
      (unregisterClick st t FetchResponse.transportError refetch).st.activitySelect
          = st.activitySelect) := by
  simp [signupSubmit, unregisterClick]

/-- Counterexample to C10 as stated: on an `ok` response whose body lacks a
`message` field, the displayed status text is the empty string, not the
literal text "undefined" — `Node.textContent` is nullable, the JavaScript
`undefined` converts to `null`, and the setter maps `null` to the empty
string. -/
theorem c10_counterexample :
    (signupSubmit initialState 0
        (.response true ⟨none, none⟩) .failure).st.msg.text = "" ∧
    (unregisterClick initialState 0
        (.response true ⟨none, none⟩) .failure).st.msg.text = "" ∧
    "" ≠ "undefined" := by
  refine ⟨rfl, rfl, by decide⟩

/-- C10 (amended): on an `ok` response the displayed status text is exactly
the response's `message` field, with no fallback; when the field is absent
the script assigns the JavaScript `undefined` to the nullable `textContent`
attribute, whose setter renders it as the empty string — so the message box
shows empty text rather than any generic success message. -/
theorem c10_success_message (st : DomState) (t : Nat) (body : ResponseBody)
    (refetch : ListFetchResult) :
    (∀ s, body.message = some s →
      (signupSubmit st t (.response true body) refetch).st.msg.text = s ∧
      (unregisterClick st t (.response true body) refetch).st.msg.text = s) ∧
    (body.message = none →
      (signupSubmit st t (.response true body) refetch).st.msg.text = "" ∧
      (unregisterClick st t (.response true body) refetch).st.msg.text = "") := by
  constructor
  · intro s hs
    cases refetch <;>
      simp [signupSubmit, unregisterClick, fetchActivities, jsTextContent, hs]
  · intro hn
    cases refetch <;>
      simp [signupSubmit, unregisterClick, fetchActivities, jsTextContent, hn]

/-- Witness for C10 (amended): a present message is shown verbatim; an
absent one displays the empty string. -/
theorem c10_witness :
    (signupSubmit initialState 0
        (.response true ⟨some "Signed up a@x.com", none⟩) .failure).st.msg.text
        = "Signed up a@x.com" ∧
    (unregisterClick initialState 0
        (.response true ⟨none, none⟩) .failure).st.msg.text = "" :=
  ⟨((c10_success_message initialState 0 ⟨some "Signed up a@x.com", none⟩
        .failure).1 "Signed up a@x.com" rfl).1,
   ((c10_success_message initialState 0 ⟨none, none⟩ .failure).2 rfl).2⟩

/-- Counterexample to C7 as stated: when the server-supplied `detail` field
is present but is the empty string, the displayed error message is the
hardcoded fallback, not the (empty) detail text — `result.detail || fb`
treats the empty string as falsy. -/
theorem c7_counterexample :
    (unregisterClick initialState 0
        (.response false ⟨none, some ""⟩) .failure).st.msg.text
        = "Failed to unregister" ∧
    (signupSubmit initialState 0
        (.response false ⟨none, some ""⟩) .failure).st.msg.text
        = "An error occurred" ∧
    "Failed to unregister" ≠ "" ∧
    "An error occurred" ≠ "" := by
  refine ⟨rfl, rfl, by decide, by decide⟩

/-- C7 (amended): a non-`ok` response displays the server-supplied detail
text verbatim when it is present and non-empty, and the handler's hardcoded
fallback when it is absent or empty; a transport failure displays the
handler's generic error message.  Both handlers are total functions of the
outcome — no exception escapes them. -/
theorem c7_error_messages (st : DomState) (t : Nat) (body : ResponseBody)
    (refetch : ListFetchResult) :
    (∀ s, body.detail = some s → s ≠ "" →
      (signupSubmit st t (.response false body) refetch).st.msg.text = s ∧
      (unregisterClick st t (.response false body) refetch).st.msg.text = s) ∧
    (body.detail = none ∨ body.detail = some "" →
      (signupSubmit st t (.response false body) refetch).st.msg.text
          = "An error occurred" ∧
      (unregisterClick st t (.response false body) refetch).st.msg.text
          = "Failed to unregister") ∧
    ((signupSubmit st t FetchResponse.transportError refetch).st.msg.text
        = "Failed to sign up. Please try again." ∧
      (signupSubmit st t FetchResponse.transportError refetch).st.msg.kind
          = MsgKind.error ∧
      (unregisterClick st t FetchResponse.transportError refetch).st.msg.text
          = "Failed to unregister. Please try again." ∧
      (unregisterClick st t FetchResponse.transportError refetch).st.msg.kind
          = MsgKind.error) := by
  refine ⟨?_, ?_, rfl, rfl, rfl, rfl⟩
  · intro s hs hne
    simp [signupSubmit, unregisterClick, jsOrElse, hs, hne]
  · rintro (hd | hd) <;>
      simp [signupSubmit, unregisterClick, jsOrElse, hd]

/-- Witness for C7 (amended): a non-empty detail is shown verbatim; an
absent detail yields the fallback. -/
theorem c7_witness :
    (signupSubmit initialState 0
        (.response false ⟨none, some "Already signed up"⟩) .failure).st.msg.text
        = "Already signed up" ∧
    (unregisterClick initialState 0
        (.response false ⟨none, none⟩) .failure).st.msg.text
        = "Failed to unregister" :=
  ⟨((c7_error_messages initialState 0 ⟨none, some "Already signed up"⟩
        .failure).1 "Already signed up" rfl (by decide)).1,
   ((c7_error_messages initialState 0 ⟨none, none⟩ .failure).2.1 (Or.inl rfl)).2⟩

/-- Counterexample to C4 as stated: the transport-error catch blocks set a
visible message but schedule no hide timer, so a message set by a signup
that completed with a transport failure at time 0 is still visible at time
10000 — more than 5 seconds later — with no superseding message having
occurred. -/
theorem c4_counterexample :
    (signupSubmit initialState 0 FetchResponse.transportError
        ListFetchResult.failure).st.msg.hidden = false ∧
    (elapseTo (signupSubmit initialState 0 FetchResponse.transportError
        ListFetchResult.failure).st 10000).msg.hidden = false := by
  refine ⟨rfl, by decide⟩

/-- C4 (amended): a status message set by a signup or unregister that
received an HTTP response (`ok` or not) schedules a 5-second hide timer at
its completion time `t`, so absent a superseding action the message carries
the `hidden` class at every time from `t + 5000` on — any other pending
timers can only hide it sooner, never later.  (Transport-failure messages
schedule no such timer — see the counterexample.) -/
theorem c4_hide_timer (st : DomState) (t now : Nat) (ok : Bool)
    (body : ResponseBody) (refetch : ListFetchResult)
    (h : t + 5000 ≤ now) :
    (elapseTo (signupSubmit st t (.response ok body) refetch).st now).msg.hidden
        = true ∧
    (elapseTo (unregisterClick st t (.response ok body) refetch).st now).msg.hidden
        = true := by
  cases ok <;> cases refetch <;>
    simp [signupSubmit, unregisterClick, fetchActivities, elapseTo, h]

/-- Witness for C4 (amended): a successful signup and a successful
unregister completing at time 0 are both hidden at time 6000. -/
theorem c4_witness :
    0 + 5000 ≤ 6000 ∧
    (elapseTo (signupSubmit initialState 0
        (.response true ⟨some "ok", none⟩) .failure).st 6000).msg.hidden = true ∧
    (elapseTo (unregisterClick initialState 0
        (.response true ⟨some "ok", none⟩) .failure).st 6000).msg.hidden = true :=
  ⟨by decide,
   (c4_hide_timer initialState 0 6000 true ⟨some "ok", none⟩ .failure
      (by decide)).1,
   (c4_hide_timer initialState 0 6000 true ⟨some "ok", none⟩ .failure
      (by decide)).2⟩

end ActivityClient
